import Mathlib

set_option maxRecDepth 8000

/-
  Verification development for the memento repository.

  The core of the repository is the markdown structural extraction engine
  in src/server/src/utils/structuredData.ts together with the sync
  orchestrator in src/server/src/services/syncService.ts.  The extraction
  engine is written against JavaScript regular expressions; we embed it
  here on top of a small backtracking regex engine whose semantics mirror
  the ECMAScript one (leftmost match, greedy/lazy quantifiers, atomic
  lookaheads, multiline anchors, dot-all).  Each source pattern is
  transliterated into the engine AST next to a comment quoting the
  original literal.

  Notes on JavaScript fidelity:
  - In a (non-unicode) JavaScript regex the escape "\Z" is an identity
    escape: it matches the literal letter Z (with the i flag, also z).
    The source uses "\Z" in several lookaheads, evidently intending
    end-of-string; we embed the actual JavaScript behaviour, i.e. a
    literal letter.
  - Strings are modelled as sequences of unicode scalar values
    (Lean Char).  JavaScript indexes by UTF-16 units; for the character
    classes used by the source the two views produce the same spans on
    well-formed input.  Lengths tested against the noise threshold use a
    UTF-16 length function.
-/

namespace Memento

/- ### JavaScript string model -/

/-- The character set matched by the JavaScript regex class backslash-s
and trimmed by String.prototype.trim (ASCII part plus the common unicode
space characters). -/
def jsSpace (c : Char) : Bool :=
  c = ' ' || c = '\t' || c = '\n' || c = '\r' || c = '\x0b' || c = '\x0c' ||
  c = '\u00A0' || c = '\uFEFF' || c = '\u1680' ||
  (('\u2000' : Char) ≤ c && c ≤ ('\u200A' : Char)) ||
  c = '\u2028' || c = '\u2029' || c = '\u202F' || c = '\u205F' || c = '\u3000' 

/-- JavaScript line terminators (relevant for multiline anchors and for
the dot without the s flag). -/
def jsLineTerm (c : Char) : Bool :=
  c = '\n' || c = '\r' || c = '\u2028' || c = '\u2029' 

/-- UTF-16 length of one character (JavaScript String.length counts
UTF-16 code units). -/
def utf16Size (c : Char) : Nat :=
  if c.toNat < 0x10000 then 1 else 2

/-- UTF-16 length of a string, the value of the JavaScript length
property. -/
def utf16Len (s : String) : Nat :=
  s.data.foldl (fun n c => n + utf16Size c) 0

/-- JavaScript String.prototype.trim. -/
def jsTrim (s : String) : String :=
  String.mk (((s.data.dropWhile jsSpace).reverse.dropWhile jsSpace).reverse)

/-- JavaScript String.prototype.includes (substring occurrence). -/
def includesList (hay nee : List Char) : Bool :=
  (List.range (hay.length + 1)).any (fun i => nee.isPrefixOf (hay.drop i))

def includesStr (hay nee : String) : Bool :=
  includesList hay.data nee.data

/-- JavaScript String.prototype.startsWith. -/
def jsStartsWith (s pre : String) : Bool :=
  pre.data.isPrefixOf s.data

/-- JavaScript String.prototype.toLowerCase (ASCII case map, which is
what the source relies on). -/
def jsLower (s : String) : String :=
  String.mk (s.data.map Char.toLower)

/-- JavaScript String.prototype.split with a single-character separator
string (the source only splits on a newline). -/
def splitLines (s : String) : List String :=
  s.splitOn "\n"

/- ### A small backtracking regex engine with ECMAScript semantics -/

/-- Regex abstract syntax.  The star carries a laziness flag; anchors
come in end-of-string and multiline flavours, matching how the
respective source pattern uses the m flag. -/
inductive RE where
  | eps
  | cls (p : Char → Bool)
  | seq (a b : RE)
  | alt (a b : RE)
  | star (lazy : Bool) (a : RE)
  | group (i : Nat) (a : RE)
  | look (neg : Bool) (a : RE)
  | bos
  | eos
  | bolm
  | eolm

/-- Captures: (group index, start, stop), most recent first. -/
abbrev Caps := List (Nat × Nat × Nat)

/-- Backtracking matcher in continuation-passing style.  The fuel only
bounds the recursion; every star iteration must consume input (the
ECMAScript RepeatMatcher aborts an iteration whose body matched without
progress), so a fuel quadratic in the input length is far more than any
derivation can use and the matcher with that fuel computes the true
backtracking result. -/
def mrun (inp : List Char) :
    Nat → RE → Nat → Caps → (Nat → Caps → Option (Nat × Caps)) → Option (Nat × Caps)
  | 0, _, _, _, _ => none
  | Nat.succ f, re, pos, caps, k =>
    match re with
    | .eps => k pos caps
    | .cls p =>
      match inp[pos]? with
      | some c => if p c then k (pos + 1) caps else none
      | none => none
    | .seq a b => mrun inp f a pos caps (fun p2 c2 => mrun inp f b p2 c2 k)
    | .alt a b =>
      match mrun inp f a pos caps k with
      | some r => some r
      | none => mrun inp f b pos caps k
    | .star lz a =>
      if lz then
        match k pos caps with
        | some r => some r
        | none =>
          mrun inp f a pos caps (fun p2 c2 =>
            if p2 = pos then none else mrun inp f (.star lz a) p2 c2 k)
      else
        match mrun inp f a pos caps (fun p2 c2 =>
            if p2 = pos then none else mrun inp f (.star lz a) p2 c2 k) with
        | some r => some r
        | none => k pos caps
    | .group i a => mrun inp f a pos caps (fun p2 c2 => k p2 ((i, pos, p2) :: c2))
    | .look neg a =>
      match mrun inp f a pos caps (fun p2 c2 => some (p2, c2)) with
      | some (_, c2) => if neg then none else k pos c2
      | none => if neg then k pos caps else none
    | .bos => if pos = 0 then k pos caps else none
    | .eos => if pos = inp.length then k pos caps else none
    | .bolm =>
      if pos = 0 then k pos caps
      else match inp[pos - 1]? with
        | some c => if jsLineTerm c then k pos caps else none
        | none => none
    | .eolm =>
      if pos = inp.length then k pos caps
      else match inp[pos]? with
        | some c => if jsLineTerm c then k pos caps else none
        | none => none

/-- One regex match: span and captures. -/
structure RMatch where
  start : Nat
  stop : Nat
  caps : Caps
  deriving Repr, DecidableEq

/-- Fuel used for one match attempt (see the comment on mrun). -/
def mfuel (inp : List Char) : Nat :=
  (inp.length + 2) * (inp.length + 2) + 100

/-- Try a match at the given start position only. -/
def matchAt (inp : List Char) (re : RE) (start : Nat) : Option RMatch :=
  match mrun inp (mfuel inp) re start [] (fun p c => some (p, c)) with
  | some (stop, caps) => some ⟨start, stop, caps⟩
  | none => none

/-- Leftmost match at or after the given start position (the tries
counter runs over the remaining candidate start positions). -/
def firstMatchAux (inp : List Char) (re : RE) : Nat → Nat → Option RMatch
  | 0, _ => none
  | Nat.succ t, start =>
    match matchAt inp re start with
    | some m => some m
    | none =>
      if start < inp.length then firstMatchAux inp re t (start + 1) else none

/-- Leftmost match in the whole input: the result of RegExp.exec on a
fresh regex. -/
def firstMatch (inp : List Char) (re : RE) : Option RMatch :=
  firstMatchAux inp re (inp.length + 1) 0

/-- All matches, in order, as produced by repeated exec on a global
regex (resuming at the previous match end, advancing by one on an empty
match exactly as AdvanceStringIndex does). -/
def allMatchesAux (inp : List Char) (re : RE) : Nat → Nat → List RMatch
  | 0, _ => []
  | Nat.succ t, start =>
    match firstMatchAux inp re (inp.length + 1 - start) start with
    | none => []
    | some m =>
      m :: allMatchesAux inp re t (if m.stop = m.start then m.stop + 1 else m.stop)

def allMatches (inp : List Char) (re : RE) : List RMatch :=
  allMatchesAux inp re (inp.length + 2) 0

/-- The substring captured by a group, none when the group did not
participate in the match (JavaScript undefined). -/
def groupStr (inp : List Char) (m : RMatch) (i : Nat) : Option String :=
  match m.caps.find? (fun t => t.1 = i) with
  | some t => some (String.mk ((inp.drop t.2.1).take (t.2.2 - t.2.1)))
  | none => none

/-- The whole matched text (JavaScript match[0]). -/
def matchedStr (inp : List Char) (m : RMatch) : String :=
  String.mk ((inp.drop m.start).take (m.stop - m.start))

/-- Splice replacement text over a sorted list of non-overlapping
matches (the core of String.prototype.replace). -/
def spliceMatches (inp : List Char) (tmpl : RMatch → List Char) :
    Nat → List RMatch → List Char
  | pos, [] => inp.drop pos
  | pos, m :: ms =>
    (inp.drop pos).take (m.start - pos) ++ tmpl m ++ spliceMatches inp tmpl m.stop ms

/-- String.prototype.replace with a global regex. -/
def replaceAll (inp : List Char) (re : RE) (tmpl : RMatch → List Char) : List Char :=
  spliceMatches inp tmpl 0 (allMatches inp re)

/-- String.prototype.replace with a non-global regex (first match
only). -/
def replaceFirst (inp : List Char) (re : RE) (tmpl : RMatch → List Char) : List Char :=
  match firstMatch inp re with
  | some m => spliceMatches inp tmpl 0 [m]
  | none => inp

/- ### Pattern building blocks -/

/-- Sequence a list of regexes. -/
def reSeq (l : List RE) : RE := l.foldr RE.seq RE.eps

/-- A regex that never matches (empty alternation base). -/
def reFail : RE := RE.cls (fun _ => false)

/-- First-preferred alternation of a list. -/
def reAlt (l : List RE) : RE :=
  match l with
  | [] => reFail
  | [r] => r
  | r :: rs => RE.alt r (reAlt rs)

/-- A literal string; with ci set the comparison is case-insensitive
(the i flag). -/
def reLit (ci : Bool) (s : String) : RE :=
  reSeq (s.data.map (fun c =>
    RE.cls (fun d => if ci then d.toLower = c.toLower else d = c)))

/-- Greedy star, lazy star, greedy plus, greedy option. -/
def reStarG (r : RE) : RE := RE.star false r
def reStarL (r : RE) : RE := RE.star true r
def rePlusG (r : RE) : RE := RE.seq r (RE.star false r)
def reOptG (r : RE) : RE := RE.alt r RE.eps

/-- Character classes used by the source patterns. -/
def clsSpace : RE := RE.cls jsSpace
def clsNotNl : RE := RE.cls (fun c => !(c = '\n'))
def clsNotHashNl : RE := RE.cls (fun c => !(c = '#') && !(c = '\n'))
def reDotAll : RE := RE.cls (fun _ => true)
def reDotNoS : RE := RE.cls (fun c => !(jsLineTerm c))


/- ### Transliterations of the source regex literals
     (src/server/src/utils/structuredData.ts) -/

def clsBulletMark : RE := RE.cls (fun c => c = '*' || c = '-')
def clsAlpha : RE := RE.cls (fun c => ('A' ≤ c && c ≤ 'Z') || ('a' ≤ c && c ≤ 'z'))
def clsNotQuoteCh : RE := RE.cls (fun c => !(c = '"'))
def clsNotDotNl : RE := RE.cls (fun c => !(c = '.') && !(c = '\n'))
def clsNotColonStar : RE := RE.cls (fun c => !(c = ':') && !(c = '*'))
def clsNotColon : RE := RE.cls (fun c => !(c = ':'))
def clsNotUnderNl : RE := RE.cls (fun c => !(c = '_') && !(c = '\n'))
def clsNotHash : RE := RE.cls (fun c => !(c = '#'))

/-- Pattern (flags gis) built in extractSectionItems when a subsection
header is given; the dollar anchor is end-of-string since the m flag is
absent.  Dynamic header text is interpolated through escapeRegex in the
source, i.e. matched literally, which is what reLit does. -/
def patSectionSub (hdr sub : String) : RE :=
  reSeq [reLit false "##", rePlusG clsSpace, reStarG clsNotNl, reLit true hdr,
         reStarL reDotAll,
         reLit false "###", rePlusG clsSpace, reStarG clsNotNl, reLit true sub,
         RE.group 1 (reStarL reDotAll),
         RE.look false (reAlt [reLit false "###", reLit false "##", reLit false "#", RE.eos])]

/-- Pattern (flags gis) built in extractSectionItems with no subsection
header. -/
def patSectionNoSub (hdr : String) : RE :=
  reSeq [reLit false "##", rePlusG clsSpace, reStarG clsNotNl, reLit true hdr,
         RE.group 1 (reStarL reDotAll),
         RE.look false (reAlt [reLit false "##", reLit false "#", RE.eos])]

/-- The bullet pattern of extractSectionItems (flags gms): multiline
anchors, dot-all. -/
def patBullet : RE :=
  reSeq [RE.bolm, reStarG clsSpace, clsBulletMark, rePlusG clsSpace,
         RE.group 1 (RE.seq reDotAll (reStarL reDotAll)),
         RE.look false (RE.alt
           (reSeq [RE.bolm, reStarG clsSpace, clsBulletMark, rePlusG clsSpace])
           (reSeq [reStarG clsSpace, RE.eolm]))]

/-- The mainPattern fallback of extractSectionItems (flags gis).  With
the i flag the bracketed upper-case class matches any ASCII letter, and
the backslash-Z escape is an identity escape matching a literal letter
Z (or z, being case-insensitive). -/
def patMain (hdr : String) : RE :=
  reSeq [reLit false "##", rePlusG clsSpace, reStarG clsNotNl, reLit true hdr,
         reStarG clsNotNl, reLit false "\n",
         RE.group 1 (reStarL reDotAll),
         RE.look false (RE.alt (reSeq [reLit false "\n## ", clsAlpha]) (reLit true "Z"))]

/-- The doubled-header pattern of extractSectionItems (flags gms); the
backslash-Z is a literal Z here (no i flag). -/
def patH3 : RE :=
  reSeq [reLit false "###", rePlusG clsSpace, reLit false "###", rePlusG clsSpace,
         RE.group 1 (rePlusG clsNotNl), reLit false "\n",
         RE.group 2 (reStarL reDotAll),
         RE.look false (reAlt
           [reSeq [reLit false "\n###", rePlusG clsSpace, reLit false "###"],
            reSeq [reLit false "\n###", RE.look true (reSeq [rePlusG clsSpace, reLit false "###"])],
            reLit false "\n##",
            reLit false "Z"])]

/-- extractQuotes pattern 1 (flag g only). -/
def patQuote1 : RE :=
  reSeq [reLit false ">", reStarG clsSpace, reLit false "**Quote that stands out:**",
         reStarG clsSpace, reOptG (reLit false "\n"), reStarG clsSpace,
         reLit false ">", reStarG clsSpace, reLit false "\"",
         RE.group 1 (rePlusG clsNotQuoteCh), reLit false "\"", reStarG clsSpace,
         reOptG (reSeq [reLit false "—", reStarG clsSpace, RE.group 2 (rePlusG clsNotDotNl)])]

/-- extractQuotes pattern 2 (flag g only). -/
def patQuote2 : RE :=
  reSeq [reLit false ">", reStarG clsSpace, reLit false "\"",
         RE.group 1 (rePlusG clsNotQuoteCh), reLit false "\"", reStarG clsSpace,
         reOptG (reSeq [reLit false "...", reStarG clsSpace, reLit false "\"",
                        RE.group 2 (rePlusG clsNotQuoteCh), reLit false "\""]),
         reStarG clsSpace, reLit false "—", reStarG clsSpace,
         RE.group 3 (rePlusG clsNotDotNl)]

/-- extractQuotes pattern 3 (flags gm): the dollar is a multiline
end-of-line anchor. -/
def patQuote3 : RE :=
  reSeq [reLit false ">", reStarG clsSpace, reLit false "\"",
         RE.group 1 (rePlusG clsNotQuoteCh), reLit false "\"",
         reStarG clsSpace, RE.eolm]

/-- The recurring-theme section pattern (flags gis). -/
def patTheme : RE :=
  reSeq [reLit false "### ", reStarG clsNotHashNl, reLit true "Recurring Theme",
         reStarG clsNotHashNl, reLit false "\n",
         RE.group 1 (reStarL reDotAll),
         RE.look false (reAlt [reLit false "###", reLit false "##", reLit false "#", RE.eos])]

/-- The theme bullet pattern (flags gms). -/
def patThemeBullet : RE :=
  reSeq [RE.bolm, reStarG clsSpace, clsBulletMark, rePlusG clsSpace, reLit false "**",
         RE.group 1 (rePlusG clsNotColonStar), reLit false ":**", reStarG clsSpace,
         RE.group 2 (RE.seq reDotAll (reStarL reDotAll)),
         RE.look false (RE.alt
           (reSeq [RE.bolm, reStarG clsSpace, clsBulletMark, rePlusG clsSpace, reLit false "**"])
           RE.eolm)]

/-- The knowledge-nugget section pattern (flags gis); with the i flag
the backslash-Z identity escape matches Z or z. -/
def patNuggetSection : RE :=
  reSeq [reLit false "##", rePlusG clsSpace, reStarG clsNotHashNl,
         reLit true "Knowledge Nuggets",
         reStarL reDotAll,
         RE.look false (RE.alt (reLit false "\n##") (reLit true "Z"))]

/-- The knowledge-nugget bullet pattern (flags gms); backslash-Z is a
literal Z. -/
def patNuggetBullet : RE :=
  reSeq [reLit false "*", rePlusG clsSpace, reLit false "**",
         RE.group 1 (reStarL clsNotColon), reLit false ":**", rePlusG clsSpace,
         RE.group 2 (RE.seq reDotAll (reStarL reDotAll)),
         RE.look false (reAlt
           [reSeq [reLit false "\n", reStarG clsSpace, reLit false "*",
                   rePlusG clsSpace, reLit false "**"],
            reLit false "\n\n",
            reLit false "Z"])]

/-- The source-suffix pattern used on a nugget fact (no flags; the
dollar is end-of-string).  The source spells the same literal twice,
once with the capture group for .match and once without it for
.replace; the replacement ignores groups, so one transliteration
serves both. -/
def patSource : RE :=
  reSeq [reLit false "_Source:", reStarG clsSpace,
         RE.group 1 (rePlusG clsNotUnderNl), reOptG (reLit false "_"), RE.eos]

/-- The memorable-exchanges section pattern (flags gi); its bracketed
space-or-nonspace class is the any-character class, and with the i flag
the backslash-Z identity escape matches Z or z. -/
def patExchangeSection : RE :=
  reSeq [reLit false "##", rePlusG clsSpace, reStarG clsNotHashNl,
         reLit true "Memorable Exchanges",
         reStarL reDotAll,
         RE.look false (RE.alt (reLit false "\n##") (reLit true "Z"))]

/-- The top-highlights block pattern (flags gis). -/
def patHighlight : RE :=
  reSeq [RE.alt (reSeq [reLit false "###", reStarG clsSpace, reLit true "Top Highlights"])
                (reSeq [reLit false "**", reLit true "Top Highlights", reLit false "**"]),
         reStarG clsSpace, reLit false "\n",
         RE.group 1 (reStarL reDotAll),
         RE.look false (reLit false "\n##")]

/-- The per-line highlight bullet pattern (no flags: anchors are
begin/end of the line string, dot excludes line terminators). -/
def patHighlightLine : RE :=
  reSeq [RE.bos, reStarG clsSpace, reLit false "*", rePlusG clsSpace,
         RE.group 1 (RE.seq reDotNoS (reStarG reDotNoS)), RE.eos]

/-- The Key Follow-Ups section pattern of the triple-hash pre-pass
(flags gms, no i flag: backslash-Z is a literal Z). -/
def patFollowUp : RE :=
  reSeq [reLit false "##", rePlusG clsSpace, reStarG clsNotHashNl,
         reLit false "Key Follow-Ups",
         reStarL reDotAll,
         RE.look false (RE.alt (reLit false "\n## ") (reLit false "Z"))]

/-- The triple-hash item pattern (flags gms; backslash-Z is a literal
Z). -/
def patTriple : RE :=
  reSeq [RE.bolm, reLit false "### ### ",
         RE.group 1 (RE.seq reDotAll (reStarL reDotAll)), reLit false "\n",
         RE.group 2 (reStarL reDotAll),
         RE.look false (reAlt
           [reLit false "\n### ###",
            reLit false "\n## ",
            reSeq [reLit false "\n### ", clsNotHash],
            reLit false "Z"])]

/-- The bold-marker pattern of stripBold (flag g; dot excludes line
terminators since the s flag is absent). -/
def patBold : RE :=
  reSeq [reLit false "**", RE.group 1 (reStarL reDotNoS), reLit false "**"]

/-- The whitespace-run pattern of collapseWhitespace (flag g). -/
def patWs : RE := rePlusG clsSpace

/-- The pattern of stripQuotes (flags gms). -/
def patStripQuotes : RE :=
  reSeq [reLit false ">", reStarG clsSpace, reLit false "**Quote",
         reStarL reDotAll, reLit false "**",
         reStarG reDotAll, RE.eolm]

/-- The edge-cleaning pattern of the exchange dialogue lines (flag g;
anchors are begin/end of string). -/
def clsEdgeL : RE := RE.cls (fun c => c = '"' || c = '>' || jsSpace c)
def clsEdgeR : RE := RE.cls (fun c => c = '"' || c = '<' || jsSpace c)
def patEdge : RE :=
  RE.alt (reSeq [RE.bos, reStarG clsEdgeL]) (reSeq [reStarG clsEdgeR, RE.eos])

/- ### Text primitives (structuredData.ts lines 250-264) -/

/-- stripBold: value.replace of the bold pattern with the first group. -/
def stripBold (value : String) : String :=
  String.mk (replaceAll value.data patBold
    (fun m => ((groupStr value.data m 1).getD "").data))

/-- collapseWhitespace: replace whitespace runs by one space, then
trim. -/
def collapseWhitespace (value : String) : String :=
  jsTrim (String.mk (replaceAll value.data patWs (fun _ => [' '])))

/-- stripQuotes: erase a trailing quote-that-stands-out block, then
trim. -/
def stripQuotes (value : String) : String :=
  jsTrim (String.mk (replaceAll value.data patStripQuotes (fun _ => [])))

/- ### The extraction engine (structuredData.ts lines 17-332) -/

structure SQuote where
  text : String
  speaker : String
  deriving Repr, DecidableEq

structure STheme where
  title : String
  description : String
  deriving Repr, DecidableEq

structure SNugget where
  category : Option String
  fact : String
  source : Option String
  deriving Repr, DecidableEq

structure SDialogueLine where
  text : String
  deriving Repr, DecidableEq

structure SExchange where
  dialogue : List SDialogueLine
  context : Option String
  deriving Repr, DecidableEq

structure StructuredData where
  actionItems : List String
  decisions : List String
  ideas : List String
  questions : List String
  themes : List STheme
  quotes : List SQuote
  highlights : List String
  knowledgeNuggets : List SNugget
  memorableExchanges : List SExchange
  deriving Repr, DecidableEq

/-- The zod schema check on the assembled record.  The record is
well-shaped by construction (the embedding is typed), so the parse is
the identity; in the source a failure here would be a thrown exception,
which cannot occur for values of the StructuredData shape. -/
def structuredDataSchemaParse (d : StructuredData) : StructuredData := d

/-- The bullet loop over a captured section span, including the
JavaScript truthiness test and the noise filter (clean && clean.length
> 10). -/
def bulletItems (sectionContent : String) : List String :=
  (allMatches sectionContent.data patBullet).filterMap (fun m =>
    let raw := (groupStr sectionContent.data m 1).getD ""
    let clean := collapseWhitespace (stripBold raw)
    if clean ≠ "" ∧ 10 < utf16Len clean then some clean else none)

/-- The doubled-header loop over the mainPattern capture, with the same
noise filter on the combined string. -/
def h3Items (mainContent : String) : List String :=
  (allMatches mainContent.data patH3).filterMap (fun m =>
    let title := collapseWhitespace (stripBold ((groupStr mainContent.data m 1).getD ""))
    let description := collapseWhitespace (stripBold ((groupStr mainContent.data m 2).getD ""))
    let combined := if description ≠ "" then title ++ ": " ++ description else title
    if combined ≠ "" ∧ 10 < utf16Len combined then some combined else none)

/-- extractSectionItems: first the header/subsection bullet pass, then,
when it produced nothing, the doubled-header fallback. -/
def extractSectionItems (content : String) (sectionHeader : String)
    (subsectionHeader : Option String) : List String :=
  let inp := content.data
  let pat := match subsectionHeader with
    | some sub => patSectionSub sectionHeader sub
    | none => patSectionNoSub sectionHeader
  let items :=
    match firstMatch inp pat with
    | some m =>
      match groupStr inp m 1 with
      | some g => if g ≠ "" then bulletItems g else []
      | none => []
    | none => []
  if items.isEmpty then
    match firstMatch inp (patMain sectionHeader) with
    | some m =>
      match groupStr inp m 1 with
      | some g => if g ≠ "" then h3Items g else []
      | none => []
    | none => []
  else items

/-- extractQuotes: the three quote patterns in order, with the
pattern-3 deduplication against everything captured so far. -/
def extractQuotes (content : String) : List SQuote :=
  let inp := content.data
  let r1 := (allMatches inp patQuote1).map (fun m =>
    let text := jsTrim ((groupStr inp m 1).getD "")
    let speaker := match groupStr inp m 2 with
      | some s => if jsTrim s ≠ "" then jsTrim s else "Unknown"
      | none => "Unknown"
    (⟨text, speaker⟩ : SQuote))
  let r2 := (allMatches inp patQuote2).map (fun m =>
    let g1 := (groupStr inp m 1).getD ""
    let text := match groupStr inp m 2 with
      | some s2 => if s2 ≠ "" then g1 ++ "... " ++ s2 else g1
      | none => g1
    (⟨jsTrim text, jsTrim ((groupStr inp m 3).getD "")⟩ : SQuote))
  (allMatches inp patQuote3).foldl (fun acc m =>
    let t := jsTrim ((groupStr inp m 1).getD "")
    let alreadyCaptured := acc.any (fun q => includesStr q.text t)
    if alreadyCaptured then acc else acc ++ [(⟨t, "Unknown"⟩ : SQuote)])
    (r1 ++ r2)

/-- The 500-unit truncation applied to a theme description (the
JavaScript slice counts UTF-16 units; a surrogate pair straddling the
boundary is dropped whole here, the only representable choice). -/
def sliceUnitsAux : List Char → Nat → List Char
  | [], _ => []
  | c :: cs, n => if utf16Size c ≤ n then c :: sliceUnitsAux cs (n - utf16Size c) else []

def sliceUnits (s : String) (n : Nat) : String :=
  String.mk (sliceUnitsAux s.data n)

def truncate500 (description : String) : String :=
  if 500 < utf16Len description then sliceUnits description 500 ++ "..." else description

/-- extractRecurringThemes: every recurring-theme block, every shaped
bullet inside it, skipping quote-that-stands-out titles.  No minimum
length is applied here. -/
def extractRecurringThemes (content : String) : List STheme :=
  (allMatches content.data patTheme).flatMap (fun m =>
    let sectionContent := (groupStr content.data m 1).getD ""
    (allMatches sectionContent.data patThemeBullet).filterMap (fun bm =>
      let title := collapseWhitespace ((groupStr sectionContent.data bm 1).getD "")
      if includesStr (jsLower title) "quote that stands out" then none
      else
        let description :=
          collapseWhitespace (stripQuotes ((groupStr sectionContent.data bm 2).getD ""))
        some (⟨title, truncate500 description⟩ : STheme)))

/-- extractKnowledgeNuggets: the section match is the whole matched
text, bullets carry a category, a fact and an optional source suffix. -/
def extractKnowledgeNuggets (content : String) : List SNugget :=
  match firstMatch content.data patNuggetSection with
  | none => []
  | some m =>
    let sectionContent := matchedStr content.data m
    (allMatches sectionContent.data patNuggetBullet).map (fun bm =>
      let category := jsTrim ((groupStr sectionContent.data bm 1).getD "")
      let factText := jsTrim ((groupStr sectionContent.data bm 2).getD "")
      let sourceM := firstMatch factText.data patSource
      let fact := match sourceM with
        | some _ => jsTrim (String.mk (replaceFirst factText.data patSource (fun _ => [])))
        | none => factText
      let src := sourceM.map (fun sm => jsTrim ((groupStr factText.data sm 1).getD ""))
      (⟨if category ≠ "" then some category else none, fact, src⟩ : SNugget))

/-- The per-line state machine of extractMemorableExchanges. -/
def exchangeStep (st : List SDialogueLine × List SExchange) (rawLine : String) :
    List SDialogueLine × List SExchange :=
  let line := jsTrim rawLine
  if jsStartsWith line "> \"" ||
      (jsStartsWith line ">" && !(includesStr line "_—") && !(includesStr line "_–")) then
    let quoteText := jsTrim (String.mk (line.data.drop 1))
    let cleanText := String.mk (replaceAll quoteText.data patEdge (fun _ => []))
    if cleanText ≠ "" then (st.1 ++ [⟨cleanText⟩], st.2) else st
  else if jsStartsWith line "> _" &&
      (includesStr line "—" || includesStr line "–" || includesStr line "-") then
    let context := jsTrim (String.mk (line.data.drop 1))
    let closed :=
      if st.1 ≠ [] then
        st.2 ++ [(⟨st.1, if context ≠ "" then some context else none⟩ : SExchange)]
      else st.2
    ([], closed)
  else st

/-- extractMemorableExchanges: find the section, then run the dialogue
state machine line by line. -/
def extractMemorableExchanges (content : String) : List SExchange :=
  match firstMatch content.data patExchangeSection with
  | none => []
  | some m =>
    let sectionContent := matchedStr content.data m
    ((splitLines sectionContent).foldl exchangeStep ([], [])).2

/-- extractTopHighlights: the block match, then one anchored bullet
match per line, with the noise filter. -/
def extractTopHighlights (content : String) : List String :=
  match firstMatch content.data patHighlight with
  | none => []
  | some m =>
    match groupStr content.data m 1 with
    | some g =>
      if g ≠ "" then
        (splitLines g).filterMap (fun line =>
          match firstMatch line.data patHighlightLine with
          | some bm =>
            let clean := collapseWhitespace (stripBold ((groupStr line.data bm 1).getD ""))
            if clean ≠ "" ∧ 10 < utf16Len clean then some clean else none
          | none => none)
      else []
    | none => []

/-- The triple-hash pre-pass on the Key Follow-Ups section
(structuredData.ts lines 266-284). -/
def tripleHashActionItems (content : String) : List String :=
  if includesStr content "Key Follow-Ups" then
    match firstMatch content.data patFollowUp with
    | some m =>
      let sectionText := matchedStr content.data m
      (allMatches sectionText.data patTriple).filterMap (fun tm =>
        let title := collapseWhitespace (stripBold ((groupStr sectionText.data tm 1).getD ""))
        let firstLine := (splitLines ((groupStr sectionText.data tm 2).getD "")).headD ""
        let description := collapseWhitespace (stripBold firstLine)
        let combined := if description ≠ "" then title ++ ": " ++ description else title
        if combined ≠ "" ∧ 10 < utf16Len combined then some combined else none)
    | none => []
  else []

/-- extractStructuredData: the public contract of the extraction
engine.  The date argument is received and never read, exactly as in
the source. -/
def extractStructuredData (content : String) (date : String) : StructuredData :=
  let preActionItems := tripleHashActionItems content
  let a1 := extractSectionItems content "Key Follow-Ups" (some "For You to Action")
  let a2 := extractSectionItems content "Key Follow-Ups" (some "Household To-Dos")
  let actionBase := preActionItems ++ a1 ++ a2
  let actionItems :=
    if actionBase.isEmpty then
      extractSectionItems content "Commitment Tracker" (some "Promises from You")
    else actionBase
  let d1 := extractSectionItems content "Decision Log" (some "Decisions Made")
  let decisions :=
    if d1.isEmpty then extractSectionItems content "Strategic Decisions Made" none else d1
  let i1 := extractSectionItems content "Idea Sandbox" (some "Seeds of an Idea")
  let ideas :=
    if i1.isEmpty then extractSectionItems content "Ideas to Explore" none else i1
  let questions :=
    extractSectionItems content "Open Questions to Resolve" none ++
    extractSectionItems content "Unresolved Questions" none
  structuredDataSchemaParse
    { actionItems := actionItems
      decisions := decisions
      ideas := ideas
      questions := questions
      themes := extractRecurringThemes content
      quotes := extractQuotes content
      highlights := extractTopHighlights content
      knowledgeNuggets := extractKnowledgeNuggets content
      memorableExchanges := extractMemorableExchanges content }


/- ### Life-log sync upsert (syncService.ts lines 379-424, with the
     storage helpers of dataService.ts lines 726-792) -/

/-- A life-log entry as produced by normalizeLifeLog: every text field
is a string (defaulted to empty), the instants are epoch milliseconds
or none for a null timestamp. -/
structure NormalizedLifeLog where
  limitlessId : String
  date : String
  title : String
  summary : String
  markdownContent : String
  segmentType : String
  startTime : Option Int
  endTime : Option Int
  deriving Repr, DecidableEq

/-- A stored lifelogs row (schema.ts): the text columns are nullable. -/
structure LifeLogRow where
  id : Nat
  limitlessId : String
  date : String
  title : Option String
  summary : Option String
  markdownContent : Option String
  segmentType : Option String
  startTime : Option Int
  endTime : Option Int
  deriving Repr, DecidableEq

structure LifeLogSyncState where
  rows : List LifeLogRow
  nextId : Nat
  synced : Nat
  updated : Nat
  skipped : Nat
  deriving Repr, DecidableEq

/-- The change test of syncService.ts lines 407-415.  A JavaScript
strict inequality between a nullable stored field and the normalized
string holds unless the stored field is that very string; the instants
are compared through valueOf with a null coalesced to 0. -/
def hasChanges (force : Bool) (record : LifeLogRow) (normalized : NormalizedLifeLog) : Bool :=
  force ||
  !(record.title = some normalized.title) ||
  !(record.summary = some normalized.summary) ||
  !(record.markdownContent = some normalized.markdownContent) ||
  !(record.segmentType = some normalized.segmentType) ||
  !(record.startTime.getD 0 = normalized.startTime.getD 0) ||
  !(record.endTime.getD 0 = normalized.endTime.getD 0) ||
  !(record.date = normalized.date)

/-- createLifeLog (dataService.ts lines 731-764): a fresh row with
every supplied field stored. -/
def createLifeLogRow (id : Nat) (n : NormalizedLifeLog) : LifeLogRow :=
  ⟨id, n.limitlessId, n.date, some n.title, some n.summary, some n.markdownContent,
   some n.segmentType, n.startTime, n.endTime⟩

/-- updateLifeLog (dataService.ts lines 766-792): date only overwritten
when truthy, the other supplied fields always overwritten. -/
def updateLifeLogRow (r : LifeLogRow) (n : NormalizedLifeLog) : LifeLogRow :=
  { r with
    date := if n.date ≠ "" then n.date else r.date
    title := some n.title
    summary := some n.summary
    markdownContent := some n.markdownContent
    segmentType := some n.segmentType
    startTime := n.startTime
    endTime := n.endTime }

/-- One iteration of the entry loop of syncLifeLogsForUser (lines
379-424) on an already-normalized entry: select by remote identifier,
insert when absent, update when hasChanges, otherwise count a skip. -/
def lifeLogUpsertStep (force : Bool) (st : LifeLogSyncState) (n : NormalizedLifeLog) :
    LifeLogSyncState :=
  match st.rows.find? (fun r => r.limitlessId == n.limitlessId) with
  | none =>
    { st with rows := st.rows ++ [createLifeLogRow st.nextId n],
              nextId := st.nextId + 1, synced := st.synced + 1 }
  | some record =>
    if hasChanges force record n then
      { st with
        rows := st.rows.map (fun r => if r.id = record.id then updateLifeLogRow r n else r),
        updated := st.updated + 1 }
    else { st with skipped := st.skipped + 1 }

/- ### The scheduled sync loop (second source chunk next to
     structuredData.ts: runScheduledSync) -/

/-- runScheduledSync: the try/catch surrounds the ENTIRE user loop, so
a rejection thrown by either per-user sync call unwinds the loop into
the outer catch and the remaining users are not processed in that run.
The two function arguments model runSyncForUser and syncLifeLogsForUser
as either returning normally or throwing; the result lists the users
whose sync was actually invoked, in order. -/
def runScheduledSyncProcessed (users : List Nat)
    (docSync lifeSync : Nat → Except String Unit) : List Nat :=
  match users with
  | [] => []
  | u :: rest =>
    match docSync u with
    | .error _ => [u]
    | .ok _ =>
      match lifeSync u with
      | .error _ => [u]
      | .ok _ => u :: runScheduledSyncProcessed rest docSync lifeSync

/- ### Calendar arithmetic for the document date shift
     (runSyncForUser, syncService.ts lines 233-241) -/

def isLeapYear (y : Nat) : Bool := (y % 4 = 0 && !(y % 100 = 0)) || y % 400 = 0

def daysInMonth (y m : Nat) : Nat :=
  if m = 2 then (if isLeapYear y then 29 else 28)
  else if m = 4 || m = 6 || m = 9 || m = 11 then 30 else 31

structure CalDate where
  year : Nat
  month : Nat
  day : Nat
  deriving Repr, DecidableEq

/-- Proleptic-Gregorian previous calendar day: the effect of the luxon
minus-one-day step on a UTC DateTime (UTC has no offset transitions,
so subtracting one day moves the calendar date back by exactly one). -/
def prevDay (d : CalDate) : CalDate :=
  if 2 ≤ d.day then ⟨d.year, d.month, d.day - 1⟩
  else if 2 ≤ d.month then ⟨d.year, d.month - 1, daysInMonth d.year (d.month - 1)⟩
  else ⟨d.year - 1, 12, 31⟩

def pad2 (n : Nat) : String := if n < 10 then "0" ++ toString n else toString n

def pad4 (n : Nat) : String :=
  if n < 10 then "000" ++ toString n
  else if n < 100 then "00" ++ toString n
  else if n < 1000 then "0" ++ toString n
  else toString n

def toISODate (d : CalDate) : String :=
  pad4 d.year ++ "-" ++ pad2 d.month ++ "-" ++ pad2 d.day

def tzTailOk : List Char → Bool
  | [] => true
  | ['Z'] => true
  | _ => false

def secondsTailOk (rest : List Char) : Bool :=
  tzTailOk rest ||
  (match rest with
   | '.' :: more =>
     decide (0 < (more.takeWhile Char.isDigit).length) && tzTailOk (more.dropWhile Char.isDigit)
   | _ => false)

def timeTailOk (l : List Char) : Bool :=
  match l with
  | h1 :: h2 :: ':' :: mi1 :: mi2 :: ':' :: s1 :: s2 :: rest =>
    ([h1, h2, mi1, mi2, s1, s2].all Char.isDigit) &&
    decide (10 * (h1.toNat - 48) + (h2.toNat - 48) < 24) &&
    decide (10 * (mi1.toNat - 48) + (mi2.toNat - 48) < 60) &&
    decide (10 * (s1.toNat - 48) + (s2.toNat - 48) < 60) &&
    secondsTailOk rest
  | _ => false

/-- Modelled from the spec and the luxon library boundary: the calendar
date accepted by DateTime.fromISO with the utc zone, restricted to the
date and date-T-time shapes with at most a fractional-second part and
an optional trailing Z designator (the shapes the external source
emits).  Numeric zone offsets are not modelled. -/
def parseIsoUtcDate (s : String) : Option CalDate :=
  match s.data with
  | y1 :: y2 :: y3 :: y4 :: '-' :: m1 :: m2 :: '-' :: d1 :: d2 :: rest =>
    if ([y1, y2, y3, y4, m1, m2, d1, d2].all Char.isDigit) &&
        (match rest with
         | [] => true
         | 'T' :: t => timeTailOk t
         | _ => false) then
      let y := 1000 * (y1.toNat - 48) + 100 * (y2.toNat - 48) + 10 * (y3.toNat - 48) + (y4.toNat - 48)
      let m := 10 * (m1.toNat - 48) + (m2.toNat - 48)
      let d := 10 * (d1.toNat - 48) + (d2.toNat - 48)
      if 1 ≤ m && m ≤ 12 && 1 ≤ d && d ≤ daysInMonth y m then some ⟨y, m, d⟩ else none
    else none
  | _ => none

structure LimitlessMessage where
  userRole : Option String
  text : Option String
  deriving Repr, DecidableEq

structure LimitlessChat where
  id : String
  createdAt : Option String
  summary : Option String
  messages : List LimitlessMessage
  deriving Repr, DecidableEq

/-- The summary-label filter of fetchDailyInsights (syncService.ts line
51). -/
def filterDailyInsights (chats : List LimitlessChat) : List LimitlessChat :=
  chats.filter (fun c => c.summary == some "Daily insights")

/-- The assistant body text of a chat (lines 239-240), empty when
absent. -/
def assistantText (chat : LimitlessChat) : String :=
  ((chat.messages.find? (fun m => m.userRole == some "assistant")).bind
    (fun m => m.text)).getD ""

/-- One iteration of the document loop of runSyncForUser (lines
233-241): the derived content date (creation instant shifted back one
day) and the body text, or none when the item is discarded for a
missing/unusable date or an empty body. -/
def processChat (chat : LimitlessChat) : Option (String × String) :=
  match chat.createdAt with
  | none => none
  | some createdAt =>
    match parseIsoUtcDate createdAt with
    | none => none
    | some created =>
      let contentDate := toISODate (prevDay created)
      let content := assistantText chat
      if content = "" then none else some (contentDate, content)

/-- The pure content of the document pass: the fetched chats are
filtered to the daily-insight label, then each surviving chat is
processed as above. -/
def syncChatsPure (chats : List LimitlessChat) : List (String × String) :=
  (filterDailyInsights chats).filterMap processChat

/- ### Sync status query (getSyncStatusForUser, syncService.ts lines
     550-610) -/

inductive SyncStatus where
  | idle
  | inProgress
  | success
  | error
  deriving Repr, DecidableEq

structure SyncMetadataRow where
  lastSyncAt : Int
  lastSyncStatus : SyncStatus
  deriving Repr, DecidableEq

/-- The human-readable reason, abstracted to a constructor carrying the
data interpolated into the source string. -/
inductive SyncReason where
  | firstSyncPending
  | waitingUntil (windowStart : Int)
  | inProgress
  | notSyncedToday
  | lastError
  | alreadySyncedAt (lastSyncTime : Int)
  deriving Repr, DecidableEq

/-- The 07:00 window start of today in the user's timezone, as an
instant in minutes since the epoch; tzOffset is the zone's offset from
UTC in minutes. -/
def syncWindowStart (tzOffset now : Int) : Int :=
  ((now + tzOffset).fdiv 1440) * 1440 + 7 * 60 - tzOffset

/-- The decision core of getSyncStatusForUser.  Luxon DateTime
comparisons compare instants regardless of zone, so every time here is
an instant in minutes since the epoch. -/
def getSyncStatusDecision (tzOffset now : Int) (lastSync : Option SyncMetadataRow) :
    Bool × SyncReason :=
  let ws := syncWindowStart tzOffset now
  match lastSync with
  | none =>
    if ws ≤ now then (true, .firstSyncPending) else (false, .waitingUntil ws)
  | some last =>
    if last.lastSyncStatus = .inProgress then (false, .inProgress)
    else if now < ws then (false, .waitingUntil ws)
    else if last.lastSyncAt < ws ∨ ¬(last.lastSyncStatus = .success) then
      (true, if last.lastSyncStatus = .success then .notSyncedToday else .lastError)
    else (false, .alreadySyncedAt last.lastSyncAt)


/- ### Lemmas: the noise filter bounds every surviving item -/

theorem noise_guard_some {x s : String}
    (h : (if x ≠ "" ∧ 10 < utf16Len x then some x else none) = some s) :
    10 < utf16Len s := by
  split at h
  · next hc => cases h; exact hc.2
  · cases h

theorem mem_bulletItems_len {sec s : String} (h : s ∈ bulletItems sec) :
    10 < utf16Len s := by
  simp only [bulletItems, List.mem_filterMap] at h
  obtain ⟨m, -, hm⟩ := h
  exact noise_guard_some hm

theorem mem_h3Items_len {sec s : String} (h : s ∈ h3Items sec) :
    10 < utf16Len s := by
  simp only [h3Items, List.mem_filterMap] at h
  obtain ⟨m, -, hm⟩ := h
  exact noise_guard_some hm

theorem mem_extractSectionItems_len {content hdr s : String} {sub : Option String}
    (h : s ∈ extractSectionItems content hdr sub) : 10 < utf16Len s := by
  unfold extractSectionItems at h
  cases sub <;>
  · simp only [] at h
    split at h
    · split at h
      · split at h
        · split at h
          · exact mem_h3Items_len h
          · simp at h
        · simp at h
      · simp at h
    · split at h
      · split at h
        · split at h
          · exact mem_bulletItems_len h
          · simp at h
        · simp at h
      · simp at h

theorem mem_tripleHashActionItems_len {content s : String}
    (h : s ∈ tripleHashActionItems content) : 10 < utf16Len s := by
  unfold tripleHashActionItems at h
  split at h
  · split at h
    · simp only [List.mem_filterMap] at h
      obtain ⟨m, -, hm⟩ := h
      exact noise_guard_some hm
    · simp at h
  · simp at h

theorem mem_extractTopHighlights_len {content s : String}
    (h : s ∈ extractTopHighlights content) : 10 < utf16Len s := by
  unfold extractTopHighlights at h
  split at h
  · simp at h
  · split at h
    · split at h
      · simp only [List.mem_filterMap] at h
        obtain ⟨line, -, hline⟩ := h
        revert hline
        split
        · intro hline; exact noise_guard_some hline
        · intro hline; cases hline
      · simp at h
    · simp at h


/- ### Field characterizations of the assembled record -/

theorem extract_actionItems_eq (content date : String) :
    (extractStructuredData content date).actionItems =
      (if (tripleHashActionItems content ++
           extractSectionItems content "Key Follow-Ups" (some "For You to Action") ++
           extractSectionItems content "Key Follow-Ups" (some "Household To-Dos")).isEmpty then
         extractSectionItems content "Commitment Tracker" (some "Promises from You")
       else
         tripleHashActionItems content ++
         extractSectionItems content "Key Follow-Ups" (some "For You to Action") ++
         extractSectionItems content "Key Follow-Ups" (some "Household To-Dos")) := rfl

theorem extract_decisions_eq (content date : String) :
    (extractStructuredData content date).decisions =
      (if (extractSectionItems content "Decision Log" (some "Decisions Made")).isEmpty then
         extractSectionItems content "Strategic Decisions Made" none
       else extractSectionItems content "Decision Log" (some "Decisions Made")) := rfl

theorem extract_ideas_eq (content date : String) :
    (extractStructuredData content date).ideas =
      (if (extractSectionItems content "Idea Sandbox" (some "Seeds of an Idea")).isEmpty then
         extractSectionItems content "Ideas to Explore" none
       else extractSectionItems content "Idea Sandbox" (some "Seeds of an Idea")) := rfl

theorem extract_questions_eq (content date : String) :
    (extractStructuredData content date).questions =
      extractSectionItems content "Open Questions to Resolve" none ++
      extractSectionItems content "Unresolved Questions" none := rfl

theorem extract_highlights_eq (content date : String) :
    (extractStructuredData content date).highlights = extractTopHighlights content := rfl

theorem extract_themes_eq (content date : String) :
    (extractStructuredData content date).themes = extractRecurringThemes content := rfl

theorem extract_quotes_eq (content date : String) :
    (extractStructuredData content date).quotes = extractQuotes content := rfl

theorem extract_knowledgeNuggets_eq (content date : String) :
    (extractStructuredData content date).knowledgeNuggets =
      extractKnowledgeNuggets content := rfl

theorem extract_memorableExchanges_eq (content date : String) :
    (extractStructuredData content date).memorableExchanges =
      extractMemorableExchanges content := rfl

/- ### Claim theorems -/

/-- C1: extractStructuredData is a pure, deterministic function of its
two inputs — two calls with identical (content, date) arguments return
identical structured records.  The embedding of the source body is
effect-free (the source performs no I/O and reads no ambient state
inside extractStructuredData), so equal inputs give equal outputs. -/
theorem extract_deterministic (c1 d1 c2 d2 : String) (hc : c1 = c2) (hd : d1 = d2) :
    extractStructuredData c1 d1 = extractStructuredData c2 d2 := by rw [hc, hd]

/-- Witness for C1 at a concrete input. -/
theorem extract_deterministic_witness :
    extractStructuredData "## Decision Log" "2025-09-24" =
      extractStructuredData "## Decision Log" "2025-09-24" :=
  extract_deterministic "## Decision Log" "2025-09-24" "## Decision Log" "2025-09-24" rfl rfl

/-- C10: the date argument has no influence on any field of the
returned record; the source function never reads its date parameter,
so the result depends on the content string alone. -/
theorem extract_date_independent (content d1 d2 : String) :
    extractStructuredData content d1 = extractStructuredData content d2 := rfl

/-- C2 counterexample: the claim says an item whose cleaned
(bold-stripped, whitespace-collapsed) text has at most 10 characters
never appears in ANY sequence field, but the themes extractor applies
no minimum length: the single theme bullet of this document cleans to
"- A: b" (6 characters) and is nevertheless emitted into the themes
sequence field. -/
theorem noise_filter_counterexample :
    (extractStructuredData "### Recurring Theme\n- **A:** b\n" "2025-09-24").themes =
      [{ title := "A", description := "b" }] ∧
    utf16Len (collapseWhitespace (stripBold "- **A:** b")) ≤ 10 := by
  constructor
  · decide
  · decide

/-- C2 amended: the 11-character noise filter governs exactly the
plain-string sequence fields produced by the section-item extractors
and the highlights extractor — actionItems, decisions, ideas,
questions and highlights never contain an item of 10 characters or
fewer; the themes, quotes, knowledge-nugget and memorable-exchange
extractors apply no length filter. -/
theorem noise_filter_plain_string_fields (content date s : String)
    (h : s ∈ (extractStructuredData content date).actionItems ∨
         s ∈ (extractStructuredData content date).decisions ∨
         s ∈ (extractStructuredData content date).ideas ∨
         s ∈ (extractStructuredData content date).questions ∨
         s ∈ (extractStructuredData content date).highlights) :
    10 < utf16Len s := by
  rcases h with h | h | h | h | h
  · rw [extract_actionItems_eq] at h
    split at h
    · exact mem_extractSectionItems_len h
    · rcases List.mem_append.mp h with h | h
      · rcases List.mem_append.mp h with h | h
        · exact mem_tripleHashActionItems_len h
        · exact mem_extractSectionItems_len h
      · exact mem_extractSectionItems_len h
  · rw [extract_decisions_eq] at h
    split at h
    · exact mem_extractSectionItems_len h
    · exact mem_extractSectionItems_len h
  · rw [extract_ideas_eq] at h
    split at h
    · exact mem_extractSectionItems_len h
    · exact mem_extractSectionItems_len h
  · rw [extract_questions_eq] at h
    rcases List.mem_append.mp h with h | h
    · exact mem_extractSectionItems_len h
    · exact mem_extractSectionItems_len h
  · rw [extract_highlights_eq] at h
    exact mem_extractTopHighlights_len h

/-- Witness for C2 amended: the end-to-end scenario document yields an
action item of more than 10 characters. -/
theorem noise_filter_plain_string_fields_witness :
    "Call dentist about appointment" ∈
      (extractStructuredData
        "## Key Follow-Ups 🔥\n### For You to Action\n- **Call dentist** about appointment\n"
        "2025-09-24").actionItems ∧
    10 < utf16Len "Call dentist about appointment" :=
  ⟨by decide,
   noise_filter_plain_string_fields
     "## Key Follow-Ups 🔥\n### For You to Action\n- **Call dentist** about appointment\n"
     "2025-09-24" "Call dentist about appointment" (Or.inl (by decide))⟩

/-- The two-line document of the quote-attribution claim. -/
def quoteAttributionDoc : String := "> \"hello\"\n> _— Alice_"

/-- C3 counterexample: for the document consisting of the blockquote
line with "hello" followed by the underscore attribution line naming
Alice, the quotes field holds exactly one quote whose speaker is
"Unknown", not "Alice": the separate attribution line never reaches
the quote speaker (pattern 2 requires the dash attribution directly
after the quoted text, and the intervening "> _" characters are not
whitespace). -/
theorem quote_attribution_counterexample :
    (extractStructuredData quoteAttributionDoc "2025-09-24").quotes =
      [{ text := "hello", speaker := "Unknown" }] := by decide

/-- C3 amended: the quote text "hello" is captured, but with speaker
"Unknown"; a speaker is populated only when the dash attribution
follows the quote within the same blockquote run, as in the second
document below. -/
theorem quote_attribution_amended :
    (extractStructuredData quoteAttributionDoc "2025-09-24").quotes.map SQuote.speaker =
      ["Unknown"] ∧
    (extractStructuredData quoteAttributionDoc "2025-09-24").quotes.map SQuote.text =
      ["hello"] ∧
    (extractStructuredData "> \"hello\" — Alice" "2025-09-24").quotes =
      [{ text := "hello", speaker := "Alice" }] := by
  refine ⟨by decide, by decide, by decide⟩

/-- C4: if the Decision Log / Decisions Made pass yields nothing and
the Strategic Decisions Made fallback yields at least one item, the
decisions field equals exactly the fallback items (and is non-empty);
and the fallback is consulted only when the primary pass yields
nothing — a non-empty primary result is returned unchanged. -/
theorem decisions_fallback :
    (∀ content date : String,
      extractSectionItems content "Decision Log" (some "Decisions Made") = [] →
      extractSectionItems content "Strategic Decisions Made" none ≠ [] →
      (extractStructuredData content date).decisions =
        extractSectionItems content "Strategic Decisions Made" none ∧
      (extractStructuredData content date).decisions ≠ []) ∧
    (∀ content date : String,
      extractSectionItems content "Decision Log" (some "Decisions Made") ≠ [] →
      (extractStructuredData content date).decisions =
        extractSectionItems content "Decision Log" (some "Decisions Made")) := by
  constructor
  · intro content date hp hf
    rw [extract_decisions_eq, hp]
    simp [hf]
  · intro content date hp
    rw [extract_decisions_eq, if_neg]
    simp [hp]

/-- Witness for C4: a document with only the fallback section. -/
def strategicDoc : String := "## Strategic Decisions Made\n- We adopt the new budget plan\n"

theorem decisions_fallback_witness :
    (extractStructuredData strategicDoc "2025-09-24").decisions =
      extractSectionItems strategicDoc "Strategic Decisions Made" none ∧
    (extractStructuredData strategicDoc "2025-09-24").decisions ≠ [] :=
  decisions_fallback.1 strategicDoc "2025-09-24" (by decide) (by decide)

/- ### No-match emptiness lemmas, one per extractor -/

theorem extractSectionItems_sub_eq_nil_no_match (content hdr sub : String)
    (h1 : firstMatch content.data (patSectionSub hdr sub) = none)
    (h2 : firstMatch content.data (patMain hdr) = none) :
    extractSectionItems content hdr (some sub) = [] := by
  unfold extractSectionItems
  simp only []
  rw [h1, h2]
  rfl

theorem extractSectionItems_nosub_eq_nil_no_match (content hdr : String)
    (h1 : firstMatch content.data (patSectionNoSub hdr) = none)
    (h2 : firstMatch content.data (patMain hdr) = none) :
    extractSectionItems content hdr none = [] := by
  unfold extractSectionItems
  simp only []
  rw [h1, h2]
  rfl

theorem tripleHashActionItems_eq_nil_no_match (content : String)
    (h : firstMatch content.data patFollowUp = none) :
    tripleHashActionItems content = [] := by
  unfold tripleHashActionItems
  split
  · rw [h]
  · rfl

theorem extractQuotes_eq_nil_no_match (content : String)
    (h1 : allMatches content.data patQuote1 = [])
    (h2 : allMatches content.data patQuote2 = [])
    (h3 : allMatches content.data patQuote3 = []) :
    extractQuotes content = [] := by
  unfold extractQuotes
  simp only [h1, h2, h3, List.map_nil, List.foldl_nil, List.append_nil]

theorem extractRecurringThemes_eq_nil_no_match (content : String)
    (h : allMatches content.data patTheme = []) :
    extractRecurringThemes content = [] := by
  unfold extractRecurringThemes
  simp only [h]
  rfl

theorem extractKnowledgeNuggets_eq_nil_no_match (content : String)
    (h : firstMatch content.data patNuggetSection = none) :
    extractKnowledgeNuggets content = [] := by
  unfold extractKnowledgeNuggets
  rw [h]

theorem extractMemorableExchanges_eq_nil_no_match (content : String)
    (h : firstMatch content.data patExchangeSection = none) :
    extractMemorableExchanges content = [] := by
  unfold extractMemorableExchanges
  rw [h]

theorem extractTopHighlights_eq_nil_no_match (content : String)
    (h : firstMatch content.data patHighlight = none) :
    extractTopHighlights content = [] := by
  unfold extractTopHighlights
  rw [h]

/- ### Zero-valid-items lemmas: a matched section whose candidates all
     fail the noise filter contributes nothing -/

theorem bulletItems_eq_nil_of_short (sectionContent : String)
    (h : ∀ m ∈ allMatches sectionContent.data patBullet,
      utf16Len (collapseWhitespace (stripBold
        ((groupStr sectionContent.data m 1).getD ""))) ≤ 10) :
    bulletItems sectionContent = [] := by
  unfold bulletItems
  rw [List.filterMap_eq_nil_iff]
  intro m hm
  simp only []
  rw [if_neg]
  intro hc
  exact absurd hc.2 (not_lt.mpr (h m hm))

theorem h3Items_eq_nil_of_short (mainContent : String)
    (h : ∀ m ∈ allMatches mainContent.data patH3,
      utf16Len
        (if collapseWhitespace (stripBold ((groupStr mainContent.data m 2).getD "")) ≠ "" then
          collapseWhitespace (stripBold ((groupStr mainContent.data m 1).getD "")) ++ ": " ++
            collapseWhitespace (stripBold ((groupStr mainContent.data m 2).getD ""))
        else collapseWhitespace (stripBold ((groupStr mainContent.data m 1).getD ""))) ≤ 10) :
    h3Items mainContent = [] := by
  unfold h3Items
  rw [List.filterMap_eq_nil_iff]
  intro m hm
  simp only []
  rw [if_neg]
  intro hc
  exact absurd hc.2 (not_lt.mpr (h m hm))

/-- C5: extractStructuredData returns normally on every input — the
embedding is a total function, and the only throw site of the source
(the zod schema check) cannot fail on a record of this shape — and the
absence of matches is never an error.  Field by field, on an arbitrary
document: when the patterns feeding a field find no match, that field
of the returned record is the empty array, whatever the rest of the
document contains; and a section that is present but whose bullet or
doubled-header candidates all fail the noise filter (cleaned text of
10 characters or fewer, including the empty string) contributes an
empty item list, so such a field also comes out as the empty array. -/
theorem extract_no_match_fields_empty :
    (∀ content date : String,
      firstMatch content.data patFollowUp = none →
      firstMatch content.data (patSectionSub "Key Follow-Ups" "For You to Action") = none →
      firstMatch content.data (patSectionSub "Key Follow-Ups" "Household To-Dos") = none →
      firstMatch content.data (patMain "Key Follow-Ups") = none →
      firstMatch content.data (patSectionSub "Commitment Tracker" "Promises from You") = none →
      firstMatch content.data (patMain "Commitment Tracker") = none →
      (extractStructuredData content date).actionItems = []) ∧
    (∀ content date : String,
      firstMatch content.data (patSectionSub "Decision Log" "Decisions Made") = none →
      firstMatch content.data (patMain "Decision Log") = none →
      firstMatch content.data (patSectionNoSub "Strategic Decisions Made") = none →
      firstMatch content.data (patMain "Strategic Decisions Made") = none →
      (extractStructuredData content date).decisions = []) ∧
    (∀ content date : String,
      firstMatch content.data (patSectionSub "Idea Sandbox" "Seeds of an Idea") = none →
      firstMatch content.data (patMain "Idea Sandbox") = none →
      firstMatch content.data (patSectionNoSub "Ideas to Explore") = none →
      firstMatch content.data (patMain "Ideas to Explore") = none →
      (extractStructuredData content date).ideas = []) ∧
    (∀ content date : String,
      firstMatch content.data (patSectionNoSub "Open Questions to Resolve") = none →
      firstMatch content.data (patMain "Open Questions to Resolve") = none →
      firstMatch content.data (patSectionNoSub "Unresolved Questions") = none →
      firstMatch content.data (patMain "Unresolved Questions") = none →
      (extractStructuredData content date).questions = []) ∧
    (∀ content date : String, allMatches content.data patTheme = [] →
      (extractStructuredData content date).themes = []) ∧
    (∀ content date : String,
      allMatches content.data patQuote1 = [] →
      allMatches content.data patQuote2 = [] →
      allMatches content.data patQuote3 = [] →
      (extractStructuredData content date).quotes = []) ∧
    (∀ content date : String, firstMatch content.data patHighlight = none →
      (extractStructuredData content date).highlights = []) ∧
    (∀ content date : String, firstMatch content.data patNuggetSection = none →
      (extractStructuredData content date).knowledgeNuggets = []) ∧
    (∀ content date : String, firstMatch content.data patExchangeSection = none →
      (extractStructuredData content date).memorableExchanges = []) ∧
    (∀ sectionContent : String,
      (∀ m ∈ allMatches sectionContent.data patBullet,
        utf16Len (collapseWhitespace (stripBold
          ((groupStr sectionContent.data m 1).getD ""))) ≤ 10) →
      bulletItems sectionContent = []) ∧
    (∀ mainContent : String,
      (∀ m ∈ allMatches mainContent.data patH3,
        utf16Len
          (if collapseWhitespace (stripBold ((groupStr mainContent.data m 2).getD "")) ≠ "" then
            collapseWhitespace (stripBold ((groupStr mainContent.data m 1).getD "")) ++ ": " ++
              collapseWhitespace (stripBold ((groupStr mainContent.data m 2).getD ""))
          else collapseWhitespace (stripBold ((groupStr mainContent.data m 1).getD ""))) ≤ 10) →
      h3Items mainContent = []) := by
  refine ⟨?_, ?_, ?_, ?_, ?_, ?_, ?_, ?_, ?_, ?_, ?_⟩
  · intro content date h1 h2 h3 h4 h5 h6
    rw [extract_actionItems_eq, tripleHashActionItems_eq_nil_no_match content h1,
      extractSectionItems_sub_eq_nil_no_match content "Key Follow-Ups" "For You to Action" h2 h4,
      extractSectionItems_sub_eq_nil_no_match content "Key Follow-Ups" "Household To-Dos" h3 h4,
      extractSectionItems_sub_eq_nil_no_match content "Commitment Tracker" "Promises from You"
        h5 h6]
    rfl
  · intro content date h1 h2 h3 h4
    rw [extract_decisions_eq,
      extractSectionItems_sub_eq_nil_no_match content "Decision Log" "Decisions Made" h1 h2,
      extractSectionItems_nosub_eq_nil_no_match content "Strategic Decisions Made" h3 h4]
    rfl
  · intro content date h1 h2 h3 h4
    rw [extract_ideas_eq,
      extractSectionItems_sub_eq_nil_no_match content "Idea Sandbox" "Seeds of an Idea" h1 h2,
      extractSectionItems_nosub_eq_nil_no_match content "Ideas to Explore" h3 h4]
    rfl
  · intro content date h1 h2 h3 h4
    rw [extract_questions_eq,
      extractSectionItems_nosub_eq_nil_no_match content "Open Questions to Resolve" h1 h2,
      extractSectionItems_nosub_eq_nil_no_match content "Unresolved Questions" h3 h4]
    rfl
  · intro content date h
    rw [extract_themes_eq, extractRecurringThemes_eq_nil_no_match content h]
  · intro content date h1 h2 h3
    rw [extract_quotes_eq, extractQuotes_eq_nil_no_match content h1 h2 h3]
  · intro content date h
    rw [extract_highlights_eq, extractTopHighlights_eq_nil_no_match content h]
  · intro content date h
    rw [extract_knowledgeNuggets_eq, extractKnowledgeNuggets_eq_nil_no_match content h]
  · intro content date h
    rw [extract_memorableExchanges_eq, extractMemorableExchanges_eq_nil_no_match content h]
  · exact bulletItems_eq_nil_of_short
  · exact h3Items_eq_nil_of_short

/-- Witness documents for C5: a document where the action-item
sections are present but the decision and quote patterns find no
match, and a document whose Decision Log section is present with a
single too-short bullet. -/
def mixedDoc : String :=
  "## Key Follow-Ups\n### For You to Action\n- **Call dentist** about appointment\n"

def shortItemsDoc : String := "## Decision Log\n### Decisions Made\n- tiny\n"

theorem extract_no_match_fields_empty_witness :
    (extractStructuredData mixedDoc "2025-09-24").decisions = [] ∧
    (extractStructuredData mixedDoc "2025-09-24").quotes = [] ∧
    bulletItems "\n- tiny\n" = [] ∧
    (extractStructuredData shortItemsDoc "2025-09-24").decisions = [] :=
  ⟨extract_no_match_fields_empty.2.1 mixedDoc "2025-09-24"
     (by decide) (by decide) (by decide) (by decide),
   extract_no_match_fields_empty.2.2.2.2.2.1 mixedDoc "2025-09-24"
     (by decide) (by decide) (by decide),
   extract_no_match_fields_empty.2.2.2.2.2.2.2.2.2.1 "\n- tiny\n" (by decide),
   by decide⟩

/- ### Claim theorems for the sync orchestrator -/

theorem hasChanges_iff (r : LifeLogRow) (n : NormalizedLifeLog) :
    hasChanges false r n = true ↔
      (r.title ≠ some n.title ∨ r.summary ≠ some n.summary ∨
       r.markdownContent ≠ some n.markdownContent ∨ r.segmentType ≠ some n.segmentType ∨
       r.startTime.getD 0 ≠ n.startTime.getD 0 ∨ r.endTime.getD 0 ≠ n.endTime.getD 0 ∨
       r.date ≠ n.date) := by
  simp only [hasChanges, Bool.false_or, Bool.or_eq_true, Bool.not_eq_true',
    decide_eq_false_iff_not]
  tauto

theorem countP_map_preserve {l : List LifeLogRow} {f : LifeLogRow → LifeLogRow}
    {p : LifeLogRow → Bool} (h : ∀ x, p (f x) = p x) :
    (l.map f).countP p = l.countP p := by
  induction l with
  | nil => rfl
  | cons a l ih => simp [List.countP_cons, h a, ih]

/-- C6 counterexample: the claim says an update happens if and only if
one of the compared fields differs, but the source compares the start
and end instants through valueOf with a null coalesced to 0: a stored
start time equal to the epoch and a fetched entry with no start time
differ as fields, yet the sync counts the entry as skipped and does
not update. -/
def lifelogStoredEpoch : LifeLogRow :=
  ⟨1, "ll-1", "2025-09-24", some "Standup", some "Morning standup", some "## Notes",
   some "meeting", some 0, some 0⟩

def lifelogFetchedNull : NormalizedLifeLog :=
  ⟨"ll-1", "2025-09-24", "Standup", "Morning standup", "## Notes", "meeting", none, none⟩

def lifelogStateEpoch : LifeLogSyncState := ⟨[lifelogStoredEpoch], 2, 0, 0, 0⟩

theorem lifelog_change_detection_counterexample :
    lifelogStoredEpoch.startTime ≠ lifelogFetchedNull.startTime ∧
    lifeLogUpsertStep false lifelogStateEpoch lifelogFetchedNull =
      ⟨[lifelogStoredEpoch], 2, 0, 0, 1⟩ := by
  constructor
  · decide
  · decide

/-- C6 amended: with the force flag unset and a stored row found for
the fetched remote identifier, the upsert updates the row if and only
if one of title, summary, markdown transcript, category, start time,
end time or derived date differs — where the start and end instants
are compared after coalescing a missing value to the epoch (0), the
other fields by strict equality against the stored nullable column.
When no compared field differs the entry is skipped: the skipped
counter increments, the updated counter and the stored rows are
untouched.  In all cases exactly one stored row remains for that
remote identifier. -/
theorem lifelog_upsert_change_detection (st : LifeLogSyncState) (n : NormalizedLifeLog)
    (r : LifeLogRow)
    (hr : st.rows.find? (fun row => row.limitlessId == n.limitlessId) = some r) :
    ((r.title ≠ some n.title ∨ r.summary ≠ some n.summary ∨
      r.markdownContent ≠ some n.markdownContent ∨ r.segmentType ≠ some n.segmentType ∨
      r.startTime.getD 0 ≠ n.startTime.getD 0 ∨ r.endTime.getD 0 ≠ n.endTime.getD 0 ∨
      r.date ≠ n.date) ↔
      (lifeLogUpsertStep false st n).updated = st.updated + 1) ∧
    (¬(r.title ≠ some n.title ∨ r.summary ≠ some n.summary ∨
       r.markdownContent ≠ some n.markdownContent ∨ r.segmentType ≠ some n.segmentType ∨
       r.startTime.getD 0 ≠ n.startTime.getD 0 ∨ r.endTime.getD 0 ≠ n.endTime.getD 0 ∨
       r.date ≠ n.date) →
      lifeLogUpsertStep false st n = { st with skipped := st.skipped + 1 }) ∧
    (st.rows.countP (fun row => row.limitlessId == n.limitlessId) = 1 →
      (lifeLogUpsertStep false st n).rows.countP
        (fun row => row.limitlessId == n.limitlessId) = 1) := by
  refine ⟨⟨?_, ?_⟩, ?_, ?_⟩
  · intro hd
    unfold lifeLogUpsertStep
    rw [hr]
    simp only []
    rw [if_pos ((hasChanges_iff r n).mpr hd)]
  · intro hu
    by_contra hd
    have hf : hasChanges false r n = false := by
      cases hb : hasChanges false r n
      · rfl
      · exact absurd ((hasChanges_iff r n).mp hb) hd
    unfold lifeLogUpsertStep at hu
    rw [hr] at hu
    simp only [] at hu
    rw [if_neg (by rw [hf]; exact Bool.false_ne_true)] at hu
    simp only [] at hu
    omega
  · intro hnd
    have hf : hasChanges false r n = false := by
      cases hb : hasChanges false r n
      · rfl
      · exact absurd ((hasChanges_iff r n).mp hb) hnd
    unfold lifeLogUpsertStep
    rw [hr]
    simp only []
    rw [if_neg (by rw [hf]; exact Bool.false_ne_true)]
  · intro hcount
    unfold lifeLogUpsertStep
    rw [hr]
    simp only []
    split
    · simp only []
      rw [countP_map_preserve]
      · exact hcount
      · intro x
        by_cases hid : x.id = r.id <;> simp [updateLifeLogRow, hid]
    · exact hcount

/-- Witness for C6 amended: an unchanged entry is skipped and the
store is untouched. -/
def lifelogStoredEq : LifeLogRow :=
  ⟨1, "ll-2", "2025-09-24", some "Standup", some "Morning standup", some "## Notes",
   some "meeting", some 100, some 200⟩

def lifelogFetchedEq : NormalizedLifeLog :=
  ⟨"ll-2", "2025-09-24", "Standup", "Morning standup", "## Notes", "meeting",
   some 100, some 200⟩

def lifelogStateEq : LifeLogSyncState := ⟨[lifelogStoredEq], 2, 0, 0, 0⟩

theorem lifelog_upsert_change_detection_witness :
    lifeLogUpsertStep false lifelogStateEq lifelogFetchedEq =
      { lifelogStateEq with skipped := lifelogStateEq.skipped + 1 } :=
  (lifelog_upsert_change_detection lifelogStateEq lifelogFetchedEq lifelogStoredEq
    (by decide)).2.1 (by decide)

/-- C7: for a fetched chat whose summary label marks it as a daily
insight, the stored content date is the UTC creation instant shifted
back one calendar day; items without a usable creation date and items
without an extractable assistant body are discarded with no error; and
membership in the fetched list is exactly the daily-insights summary
filter. -/
theorem document_date_shift :
    (∀ (chat : LimitlessChat) (s : String) (cd : CalDate),
      chat.createdAt = some s → parseIsoUtcDate s = some cd →
      assistantText chat ≠ "" →
      processChat chat = some (toISODate (prevDay cd), assistantText chat)) ∧
    (∀ chat : LimitlessChat, chat.createdAt = none → processChat chat = none) ∧
    (∀ (chat : LimitlessChat) (s : String), chat.createdAt = some s →
      parseIsoUtcDate s = none → processChat chat = none) ∧
    (∀ chat : LimitlessChat, assistantText chat = "" → processChat chat = none) ∧
    (∀ (chats : List LimitlessChat) (chat : LimitlessChat),
      chat ∈ filterDailyInsights chats ↔
        chat ∈ chats ∧ chat.summary = some "Daily insights") := by
  refine ⟨?_, ?_, ?_, ?_, ?_⟩
  · intro chat s cd hc hp hne
    unfold processChat
    rw [hc]
    simp only []
    rw [hp]
    simp only []
    rw [if_neg hne]
  · intro chat hc
    unfold processChat
    rw [hc]
  · intro chat s hc hp
    unfold processChat
    rw [hc]
    simp only []
    rw [hp]
  · intro chat hb
    unfold processChat
    cases hc : chat.createdAt with
    | none => rfl
    | some s =>
      simp only []
      cases hp : parseIsoUtcDate s with
      | none => rfl
      | some cd => simp [hb]
  · intro chats chat
    unfold filterDailyInsights
    rw [List.mem_filter]
    simp

/-- Witness for C7: a chat created at dawn of 2025-09-25 UTC stores
content date 2025-09-24. -/
def dailyInsightChat : LimitlessChat :=
  ⟨"chat-1", some "2025-09-25T07:00:00Z", some "Daily insights",
   [⟨some "assistant", some "Summary of the day"⟩]⟩

theorem document_date_shift_witness :
    processChat dailyInsightChat = some ("2025-09-24", "Summary of the day") := by
  rw [document_date_shift.1 dailyInsightChat "2025-09-25T07:00:00Z" ⟨2025, 9, 25⟩ rfl
    (by decide) (by decide)]
  decide

/-- C8: the sync status query with a 07:00 daily window returns
should-sync false with a window-referencing reason before the window
start (also with no stored sync row at all), false while a sync is in
progress, true past the window start when the last sync predates the
window start or did not end in success, and otherwise false with an
already-synced-today reason carrying the last sync time. -/
theorem sync_status_window (tzOffset now : Int) (lastSync : Option SyncMetadataRow) :
    (now < syncWindowStart tzOffset now →
      (∀ r, lastSync = some r → r.lastSyncStatus ≠ SyncStatus.inProgress) →
      getSyncStatusDecision tzOffset now lastSync =
        (false, SyncReason.waitingUntil (syncWindowStart tzOffset now))) ∧
    (∀ r, lastSync = some r → r.lastSyncStatus = SyncStatus.inProgress →
      getSyncStatusDecision tzOffset now lastSync = (false, SyncReason.inProgress)) ∧
    (syncWindowStart tzOffset now ≤ now → ∀ r, lastSync = some r →
      r.lastSyncStatus ≠ SyncStatus.inProgress →
      (r.lastSyncAt < syncWindowStart tzOffset now ∨
        r.lastSyncStatus = SyncStatus.error) →
      (getSyncStatusDecision tzOffset now lastSync).1 = true) ∧
    (syncWindowStart tzOffset now ≤ now → ∀ r, lastSync = some r →
      r.lastSyncStatus = SyncStatus.success →
      syncWindowStart tzOffset now ≤ r.lastSyncAt →
      getSyncStatusDecision tzOffset now lastSync =
        (false, SyncReason.alreadySyncedAt r.lastSyncAt)) ∧
    (lastSync = none → syncWindowStart tzOffset now ≤ now →
      getSyncStatusDecision tzOffset now lastSync =
        (true, SyncReason.firstSyncPending)) := by
  refine ⟨?_, ?_, ?_, ?_, ?_⟩
  · intro hlt hnp
    cases lastSync with
    | none =>
      unfold getSyncStatusDecision
      simp only []
      rw [if_neg (not_le.mpr hlt)]
    | some r =>
      have hr := hnp r rfl
      unfold getSyncStatusDecision
      simp only []
      rw [if_neg hr, if_pos hlt]
  · intro r hr hp
    subst hr
    unfold getSyncStatusDecision
    simp only []
    rw [if_pos hp]
  · intro hge r hr hnp hd
    subst hr
    unfold getSyncStatusDecision
    simp only []
    rw [if_neg hnp, if_neg (not_lt.mpr hge), if_pos]
    rcases hd with hd | hd
    · exact Or.inl hd
    · exact Or.inr (by simp [hd])
  · intro hge r hr hsucc hafter
    subst hr
    unfold getSyncStatusDecision
    simp only []
    rw [if_neg (by simp [hsucc]), if_neg (not_lt.mpr hge), if_neg]
    simp [hsucc, not_lt.mpr hafter]
  · intro hnone hge
    subst hnone
    unfold getSyncStatusDecision
    simp only []
    rw [if_pos hge]

/-- Witness for C8: scenario D — a query at 06:00 with no stored sync
row, in a zone with offset zero, is refused with a reason pointing at
the 07:00 window. -/
theorem sync_status_window_witness :
    getSyncStatusDecision 0 360 none =
      (false, SyncReason.waitingUntil (syncWindowStart 0 360)) ∧
    syncWindowStart 0 360 = 420 :=
  ⟨(sync_status_window 0 360 none).1 (by decide) (fun r hr => nomatch hr), by decide⟩

/-- C9: the scheduled sync loop does NOT continue past a thrown
per-user failure — the try/catch of runScheduledSync wraps the entire
user loop, so the first per-user sync call that throws unwinds to the
outer catch and the remaining users are skipped for that run.  With
two users and a document sync that throws for the first, only the
first user is ever invoked. -/
def failingDocSync : Nat → Except String Unit := fun u =>
  if u = 1 then Except.error "database unavailable" else Except.ok ()

def okLifeSync : Nat → Except String Unit := fun _ => Except.ok ()

theorem scheduled_sync_stops_at_first_failure :
    runScheduledSyncProcessed [1, 2] failingDocSync okLifeSync = [1] := rfl

end Memento
